import Mathlib

/-!
Verification of the kind terraform provider's reconciliation core
(`internal/provider/cluster_resource.go`) against its specification.

The Go code is shallowly embedded: terraform framework values
(`types.String`, `types.Int64`, ...) become `Option`-wrapped Lean values
(`none` = null), the declarative model structs become Lean structures,
and the pure synthesis functions (`buildClusterConfig`,
`buildNetworkingConfig`, `buildNodeConfig`) become Lean functions.
Effectful operations (backend create, kubeconfig fetch, YAML unmarshal,
filesystem stat/remove, the node-status polling loop) are embedded as
functions over explicit environment records whose fields carry the
results of the external calls, so every path of the Go control flow is
represented and the functions stay executable.
-/

namespace KindTf

/-! ## Terraform framework values

`types.String` is either null or a string; `ValueString()` on a null
value returns `""`.  Likewise for `types.Bool` (`false`) and
`types.Int64` (`0`).  Lists and maps of the terraform framework can be
null as a whole and can hold null elements. -/

abbrev TfString := Option String
abbrev TfInt := Option Int
abbrev TfBool := Option Bool
abbrev TfStringList := Option (List (Option String))
abbrev TfBoolMap := Option (List (String × Option Bool))
abbrev TfStringMap := Option (List (String × Option String))

/-- `types.String.ValueString()`: the value, or `""` when null. -/
def tfStr (s : TfString) : String := s.getD ""

/-- `types.Bool.ValueBool()`: the value, or `false` when null. -/
def tfBool (b : TfBool) : Bool := b.getD false

/-- `types.Int64.ValueInt64()`: the value, or `0` when null. -/
def tfInt (n : TfInt) : Int := n.getD 0

/-- Go `int32(x)` conversion of an `int64`: wrap into `[-2^31, 2^31)`. -/
def toInt32 (n : Int) : Int := (n + 2 ^ 31) % 2 ^ 32 - 2 ^ 31

/-! ## The declarative model (`models.go`)

Only the fields read by the synthesizer and lifecycle functions are
kept; computed output fields live in `PopulatedData` below. -/

structure PatchJSON6902Model where
  group : TfString := none
  version : TfString := none
  patchKind : TfString := none
  patch : TfString := none
deriving Repr, DecidableEq

structure MountModel where
  hostPath : TfString := none
  containerPath : TfString := none
  readOnly : TfBool := none
  selinuxRelabel : TfBool := none
  propagation : TfString := none
deriving Repr, DecidableEq

structure PortMappingModel where
  containerPort : TfInt := none
  hostPort : TfInt := none
  listenAddress : TfString := none
  protocol : TfString := none
deriving Repr, DecidableEq

structure NodeModel where
  role : TfString := none
  image : TfString := none
  labels : TfStringMap := none
  extraMounts : List MountModel := []
  extraPortMappings : List PortMappingModel := []
  kubeadmConfigPatches : TfStringList := none
  kubeadmConfigPatchesJSON6902 : List PatchJSON6902Model := []
deriving Repr, DecidableEq

structure NetworkingModel where
  ipFamily : TfString := none
  apiServerPort : TfInt := none
  apiServerAddress : TfString := none
  podSubnet : TfString := none
  serviceSubnet : TfString := none
  disableDefaultCNI : TfBool := none
  kubeProxyMode : TfString := none
  dnsSearch : TfStringList := none
deriving Repr, DecidableEq

structure ClusterResourceModel where
  name : TfString := none
  nodeImage : TfString := none
  waitForReady : TfInt := none
  networking : Option NetworkingModel := none
  featureGates : TfBoolMap := none
  runtimeConfig : TfStringMap := none
  kubeadmConfigPatches : TfStringList := none
  kubeadmConfigPatchesJSON6902 : List PatchJSON6902Model := []
  containerdConfigPatches : TfStringList := none
  containerdConfigPatchesJSON6902 : TfStringList := none
  waitForNodesReady : TfBool := none
  nodes : List NodeModel := []
deriving Repr, DecidableEq

/-! ## The backend spec (`sigs.k8s.io/kind` `v1alpha4` types)

Enum-typed fields (`NodeRole`, `ClusterIPFamily`, `ProxyMode`,
`MountPropagation`, `PortMappingProtocol`) are Go string types; they are
embedded as `String`, with the known constants listed below.  Zero
values of the Go structs become the Lean default field values. -/

def controlPlaneRole : String := "control-plane"

def workerRole : String := "worker"

def nodeRoleConstants : List String := [controlPlaneRole, workerRole]

def ipFamilyConstants : List String := ["ipv4", "ipv6", "dual"]

def proxyModeConstants : List String := ["iptables", "ipvs", "nftables"]

def propagationConstants : List String := ["None", "HostToContainer", "Bidirectional"]

def protocolConstants : List String := ["TCP", "UDP", "SCTP"]

structure PatchJSON6902 where
  group : String := ""
  version : String := ""
  patchKind : String := ""
  patch : String := ""
deriving Repr, DecidableEq

structure Mount where
  hostPath : String := ""
  containerPath : String := ""
  readonly : Bool := false
  selinuxRelabel : Bool := false
  propagation : String := ""
deriving Repr, DecidableEq

structure PortMapping where
  containerPort : Int := 0
  hostPort : Int := 0
  listenAddress : String := ""
  protocol : String := ""
deriving Repr, DecidableEq

structure KindNode where
  role : String := ""
  image : String := ""
  labels : List (String × String) := []
  kubeadmConfigPatches : List String := []
  kubeadmConfigPatchesJSON6902 : List PatchJSON6902 := []
  extraMounts : List Mount := []
  extraPortMappings : List PortMapping := []
deriving Repr, DecidableEq

structure Networking where
  ipFamily : String := ""
  apiServerPort : Int := 0
  apiServerAddress : String := ""
  podSubnet : String := ""
  serviceSubnet : String := ""
  disableDefaultCNI : Bool := false
  kubeProxyMode : String := ""
  dnsSearch : Option (List String) := none
deriving Repr, DecidableEq

structure KindClusterSpec where
  name : String := ""
  networking : Networking := {}
  featureGates : List (String × Bool) := []
  runtimeConfig : List (String × String) := []
  kubeadmConfigPatches : List String := []
  kubeadmConfigPatchesJSON6902 : List PatchJSON6902 := []
  containerdConfigPatches : List String := []
  containerdConfigPatchesJSON6902 : List String := []
  nodes : List KindNode := []
deriving Repr, DecidableEq

/-! ## Config Synthesizer (`buildClusterConfig` and helpers) -/

/-- The Go loop over a `types.List` of strings that keeps every non-null
element's value, in order (`cluster_resource.go` lines 685-690 and the
analogous loops). -/
def collectStrings (elems : List (Option String)) : List String :=
  elems.filterMap (fun e => e)

/-- The Go loop over a `types.Map` of bools keeping non-null entries
(`cluster_resource.go` lines 663-668). -/
def collectBoolMap (elems : List (String × Option Bool)) : List (String × Bool) :=
  elems.filterMap (fun kv => kv.2.map (fun b => (kv.1, b)))

/-- The Go loop over a `types.Map` of strings keeping non-null entries
(`cluster_resource.go` lines 674-679). -/
def collectStringMap (elems : List (String × Option String)) : List (String × String) :=
  elems.filterMap (fun kv => kv.2.map (fun s => (kv.1, s)))

/-- Body of the JSON6902 patch loops (`cluster_resource.go` lines
696-704 and 829-837): every field is read with `ValueString()`. -/
def buildPatchJSON6902 (p : PatchJSON6902Model) : PatchJSON6902 :=
  { group := tfStr p.group
    version := tfStr p.version
    patchKind := tfStr p.patchKind
    patch := tfStr p.patch }

/-- Body of the extra-mounts loop (`cluster_resource.go` lines 844-854):
propagation is cast verbatim whenever the model value is non-null. -/
def buildMount (mount : MountModel) : Mount :=
  { hostPath := tfStr mount.hostPath
    containerPath := tfStr mount.containerPath
    readonly := tfBool mount.readOnly
    selinuxRelabel := tfBool mount.selinuxRelabel
    propagation := if mount.propagation.isSome then tfStr mount.propagation else "" }

/-- Body of the extra-port-mappings loop (`cluster_resource.go` lines
860-871): ports go through `int32(...)`, listen address and protocol
are set only when non-null, protocol by verbatim cast. -/
def buildPortMapping (pm : PortMappingModel) : PortMapping :=
  { containerPort := toInt32 (tfInt pm.containerPort)
    hostPort := toInt32 (tfInt pm.hostPort)
    listenAddress := if pm.listenAddress.isSome then tfStr pm.listenAddress else ""
    protocol := if pm.protocol.isSome then tfStr pm.protocol else "" }

/-- `buildNodeConfig` (`cluster_resource.go` lines 790-875).  The role
is mapped by an exact-match `switch` on "control-plane" / "worker"; an
unrecognized non-null role matches no case and leaves the zero value. -/
def buildNodeConfig (node : NodeModel) : KindNode :=
  { role :=
      if node.role.isSome then
        if tfStr node.role = "control-plane" then controlPlaneRole
        else if tfStr node.role = "worker" then workerRole
        else ""
      else ""
    image := if node.image.isSome && tfStr node.image ≠ "" then tfStr node.image else ""
    labels :=
      if node.labels.isSome then
        (node.labels.getD []).map (fun kv => (kv.1, kv.2.getD ""))
      else []
    kubeadmConfigPatches :=
      if node.kubeadmConfigPatches.isSome &&
          (node.kubeadmConfigPatches.getD []).length > 0 then
        collectStrings (node.kubeadmConfigPatches.getD [])
      else []
    kubeadmConfigPatchesJSON6902 :=
      if node.kubeadmConfigPatchesJSON6902.length > 0 then
        node.kubeadmConfigPatchesJSON6902.map buildPatchJSON6902
      else []
    extraMounts :=
      if node.extraMounts.length > 0 then node.extraMounts.map buildMount else []
    extraPortMappings :=
      if node.extraPortMappings.length > 0 then
        node.extraPortMappings.map buildPortMapping
      else [] }

/-- `buildNetworkingConfig` (`cluster_resource.go` lines 746-788).  IP
family and kube-proxy mode are cast verbatim (no match against the
known constants) whenever non-null and non-empty. -/
def buildNetworkingConfig (net : NetworkingModel) : Networking :=
  { ipFamily :=
      if net.ipFamily.isSome && tfStr net.ipFamily ≠ "" then tfStr net.ipFamily else ""
    apiServerPort :=
      if net.apiServerPort.isSome then toInt32 (tfInt net.apiServerPort) else 0
    apiServerAddress :=
      if net.apiServerAddress.isSome && tfStr net.apiServerAddress ≠ "" then
        tfStr net.apiServerAddress
      else ""
    podSubnet :=
      if net.podSubnet.isSome && tfStr net.podSubnet ≠ "" then tfStr net.podSubnet else ""
    serviceSubnet :=
      if net.serviceSubnet.isSome && tfStr net.serviceSubnet ≠ "" then
        tfStr net.serviceSubnet
      else ""
    disableDefaultCNI :=
      if net.disableDefaultCNI.isSome then tfBool net.disableDefaultCNI else false
    kubeProxyMode :=
      if net.kubeProxyMode.isSome && tfStr net.kubeProxyMode ≠ "" then
        tfStr net.kubeProxyMode
      else ""
    dnsSearch :=
      if net.dnsSearch.isSome && (net.dnsSearch.getD []).length > 0 then
        some (collectStrings (net.dnsSearch.getD []))
      else none }

/-- `buildClusterConfig` (`cluster_resource.go` lines 647-744). -/
def buildClusterConfig (data : ClusterResourceModel) : KindClusterSpec :=
  { name := tfStr data.name
    networking :=
      match data.networking with
      | some net => buildNetworkingConfig net
      | none => {}
    featureGates :=
      if data.featureGates.isSome && (data.featureGates.getD []).length > 0 then
        collectBoolMap (data.featureGates.getD [])
      else []
    runtimeConfig :=
      if data.runtimeConfig.isSome && (data.runtimeConfig.getD []).length > 0 then
        collectStringMap (data.runtimeConfig.getD [])
      else []
    kubeadmConfigPatches :=
      if data.kubeadmConfigPatches.isSome &&
          (data.kubeadmConfigPatches.getD []).length > 0 then
        collectStrings (data.kubeadmConfigPatches.getD [])
      else []
    kubeadmConfigPatchesJSON6902 :=
      if data.kubeadmConfigPatchesJSON6902.length > 0 then
        data.kubeadmConfigPatchesJSON6902.map buildPatchJSON6902
      else []
    containerdConfigPatches :=
      if data.containerdConfigPatches.isSome &&
          (data.containerdConfigPatches.getD []).length > 0 then
        collectStrings (data.containerdConfigPatches.getD [])
      else []
    containerdConfigPatchesJSON6902 :=
      if data.containerdConfigPatchesJSON6902.isSome &&
          (data.containerdConfigPatchesJSON6902.getD []).length > 0 then
        collectStrings (data.containerdConfigPatchesJSON6902.getD [])
      else []
    nodes :=
      if data.nodes.length > 0 then data.nodes.map buildNodeConfig
      else [{ role := controlPlaneRole }, { role := workerRole }] }

/-- Enum mapping as §4.1 of the spec words it ("map each enum-valued
string by exact string match" against the known constants): a value not
among the constants cannot reach the spec.  Used only to compare the
spec's wording against `buildNetworkingConfig` / `buildNodeConfig`. -/
def specEnumExactMatch (known : List String) (s : String) : String :=
  if s ∈ known then s else ""

/-! ## Credential-bundle parsing (`populateComputedValues`)

`yaml.Unmarshal` produces a Go `map[string]interface{}`; the dynamic
`interface{}` values are embedded as an inductive `Yaml` type, and the
Go type assertions `.(string)`, `.([]interface{})`,
`.(map[string]interface{})` become the partial projections below.
Unmarshal itself is external and is supplied as an oracle
(`Except String YMap`: Go returns an error for a bundle that is not a
YAML mapping). -/

inductive Yaml where
  | str (s : String)
  | arr (elems : List Yaml)
  | obj (fields : List (String × Yaml))
  | other
deriving Repr

abbrev YMap := List (String × Yaml)

/-- Go map indexing `m[k]`: a missing key yields `nil` (here `none`).
Unmarshalled Go maps have unique keys, so first-match lookup is exact. -/
def lookupKey (m : YMap) (k : String) : Option Yaml :=
  match m with
  | [] => none
  | (k2, v) :: rest => if k2 = k then some v else lookupKey rest k

/-- Type assertion `.([]interface{})`; fails on `nil` and non-arrays. -/
def Yaml.asArr : Yaml → Option (List Yaml)
  | .arr xs => some xs
  | _ => none

/-- Type assertion `.(map[string]interface{})`. -/
def Yaml.asObj : Yaml → Option YMap
  | .obj fs => some fs
  | _ => none

/-- Type assertion `.(string)`. -/
def Yaml.asStr : Yaml → Option String
  | .str s => some s
  | _ => none

/-- The four derived credential fields before the empty-string
defaulting; `none` = the field was never assigned (absent from the
bundle or shadowed by a failed type assertion). -/
structure RawDerived where
  endpoint : Option String := none
  caCert : Option String := none
  clientCert : Option String := none
  clientKey : Option String := none
deriving Repr, DecidableEq

/-- The guarded extraction walk of `populateComputedValues`
(`cluster_resource.go` lines 903-927): first cluster entry's `server`
and `certificate-authority-data`, first user entry's
`client-certificate-data` and `client-key-data`; every failed guard
leaves the fields unassigned. -/
def extractDerived (doc : YMap) : RawDerived :=
  let clusterPart :=
    match (lookupKey doc "clusters").bind Yaml.asArr with
    | some (c0 :: _) =>
      match c0.asObj with
      | some clusterData =>
        match (lookupKey clusterData "cluster").bind Yaml.asObj with
        | some clusterInfo =>
          ((lookupKey clusterInfo "server").bind Yaml.asStr,
            (lookupKey clusterInfo "certificate-authority-data").bind Yaml.asStr)
        | none => (none, none)
      | none => (none, none)
    | _ => (none, none)
  let userPart :=
    match (lookupKey doc "users").bind Yaml.asArr with
    | some (u0 :: _) =>
      match u0.asObj with
      | some userData =>
        match (lookupKey userData "user").bind Yaml.asObj with
        | some userInfo =>
          ((lookupKey userInfo "client-certificate-data").bind Yaml.asStr,
            (lookupKey userInfo "client-key-data").bind Yaml.asStr)
        | none => (none, none)
      | none => (none, none)
    | _ => (none, none)
  { endpoint := clusterPart.1, caCert := clusterPart.2,
    clientCert := userPart.1, clientKey := userPart.2 }

/-- The derived fields after the final `IsNull()` → `""` defaulting
(`cluster_resource.go` lines 929-940): on a reconciliation pass the
computed fields start null, so an unassigned field becomes `""`. -/
structure Derived where
  endpoint : String
  caCert : String
  clientCert : String
  clientKey : String
deriving Repr, DecidableEq

/-- Results of the external calls made by `populateComputedValues`:
`provider.KubeConfig`, `os.UserHomeDir`, and `yaml.Unmarshal` of the
fetched bundle. -/
structure PopulateEnv where
  kubeconfigFetch : Except String String
  homeDir : Except String String
  parsed : Except String YMap

/-- Everything `populateComputedValues` writes into the model on
success. -/
structure PopulatedData where
  id : String
  kubeconfig : String
  kubeconfigPath : String
  derived : Derived
deriving Repr, DecidableEq

/-- `populateComputedValues` (`cluster_resource.go` lines 877-941).
Errors are `(summary, detail)` pairs as passed to
`diagnostics.AddError`; an error return leaves the derived fields
unpopulated (the `Except` carries no data). -/
def populateComputedValues (env : PopulateEnv) (clusterName : String) :
    Except (String × String) PopulatedData :=
  match env.kubeconfigFetch with
  | .error e => .error ("Failed to get kubeconfig", e)
  | .ok kubeconfig =>
    match env.homeDir with
    | .error e => .error ("Failed to get home directory", e)
    | .ok homeDir =>
      let kubeconfigPath := homeDir ++ "/.kube/kind/kind-" ++ clusterName
      match env.parsed with
      | .error e => .error ("Failed to parse kubeconfig", e)
      | .ok doc =>
        let raw := extractDerived doc
        .ok { id := clusterName
              kubeconfig := kubeconfig
              kubeconfigPath := kubeconfigPath
              derived :=
                { endpoint := raw.endpoint.getD ""
                  caCert := raw.caCert.getD ""
                  clientCert := raw.clientCert.getD ""
                  clientKey := raw.clientKey.getD "" } }

/-! ## Readiness Gate (`waitForAllNodesReady`)

The polling loop (`cluster_resource.go` lines 100-139) races three
channels: `ctx.Done()`, `time.After(timeout)`, and a 5-second ticker.
The sequence of channel firings observed by the `select` is embedded as
a list of `WaitEvent`s in firing order; each ticker firing carries the
result of the `Nodes().List` call made at that tick. -/

structure NodeCondition where
  condType : String
  status : String
deriving Repr, DecidableEq

structure NodeView where
  name : String
  conditions : List NodeCondition
deriving Repr, DecidableEq

/-- The per-node inner loop (`cluster_resource.go` lines 121-127): a
node is ready when some condition has type `Ready` and status `True`. -/
def nodeIsReady (n : NodeView) : Bool :=
  n.conditions.any (fun c => c.condType = "Ready" && c.status = "True")

inductive PollResult where
  | listError
  | ok (nodes : List NodeView)
deriving Repr, DecidableEq

inductive WaitEvent where
  | cancelled
  | timedOut
  | tick (pr : PollResult)
deriving Repr, DecidableEq

inductive WaitResult where
  | success
  | cancelled
  | timedOutAfter (timeout : Nat)
  | setupError (msg : String)
deriving Repr, DecidableEq

/-- The ticker-case body (`cluster_resource.go` lines 107-137): a list
error or an empty node list continues polling (`false`); otherwise
return success exactly when every node is ready. -/
def pollStep (pr : PollResult) : Bool :=
  match pr with
  | .listError => false
  | .ok nodes =>
    if nodes.length = 0 then false
    else nodes.all nodeIsReady

/-- The `for`/`select` loop (`cluster_resource.go` lines 100-139) run
over the events in firing order.  `none` means the loop is still
waiting after the given events (the Go loop blocks for the next
channel firing). -/
def runWaitLoop (timeout : Nat) : List WaitEvent → Option WaitResult
  | [] => none
  | e :: rest =>
    match e with
    | .cancelled => some .cancelled
    | .timedOut => some (.timedOutAfter timeout)
    | .tick pr => if pollStep pr then some .success else runWaitLoop timeout rest

/-- Results of the pre-loop setup I/O of `waitForAllNodesReady`
(temp-file creation/write/close) and client construction
(`clientcmd.BuildConfigFromFlags`, `kubernetes.NewForConfig`); the
latter two fail on a credential bundle that does not materialize into
a usable client configuration. -/
structure WaitSetupEnv where
  createTemp : Except String Unit := .ok ()
  writeFile : Except String Unit := .ok ()
  closeFile : Except String Unit := .ok ()
  buildConfig : Except String Unit := .ok ()
  newClient : Except String Unit := .ok ()

/-- Whether an external call succeeded. -/
def exceptOk {ε α : Type} : Except ε α → Bool
  | .ok _ => true
  | .error _ => false

def WaitSetupEnv.allOk (env : WaitSetupEnv) : Bool :=
  exceptOk env.createTemp && exceptOk env.writeFile && exceptOk env.closeFile &&
    exceptOk env.buildConfig && exceptOk env.newClient

/-- `waitForAllNodesReady` (`cluster_resource.go` lines 68-140): the
five early error returns, then the polling loop. -/
def waitForAllNodesReady (env : WaitSetupEnv) (timeout : Nat)
    (evs : List WaitEvent) : Option WaitResult :=
  match env.createTemp with
  | .error e => some (.setupError ("failed to create temp kubeconfig: " ++ e))
  | .ok _ =>
    match env.writeFile with
    | .error e => some (.setupError ("failed to write kubeconfig: " ++ e))
    | .ok _ =>
      match env.closeFile with
      | .error e => some (.setupError ("failed to close kubeconfig file: " ++ e))
      | .ok _ =>
        match env.buildConfig with
        | .error e => some (.setupError ("failed to build kubeconfig: " ++ e))
        | .ok _ =>
          match env.newClient with
          | .error e => some (.setupError ("failed to create kubernetes client: " ++ e))
          | .ok _ => runWaitLoop timeout evs

/-- Number of ticker firings that strictly precede the timeout firing:
the ticker first fires at time 5 and then every 5 time-units, the
timeout channel fires at time `timeout`, so the ticks seen before the
timeout are those `k ≥ 1` with `5 * k < timeout`. -/
def ticksBefore (timeout : Nat) : Nat := (timeout - 1) / 5

/-- The event sequence of a run in which the cancellation signal never
fires and the loop has not returned success before the timeout fires:
the ticks strictly before `timeout` (the k-th carrying `polls k`),
then the timeout firing. -/
def schedule (timeout : Nat) (polls : Nat → PollResult) : List WaitEvent :=
  ((List.range (ticksBefore timeout)).map (fun k => WaitEvent.tick (polls k))) ++
    [WaitEvent.timedOut]

/-- A timed run of `waitForAllNodesReady` without cancellation. -/
def runTimed (env : WaitSetupEnv) (timeout : Nat) (polls : Nat → PollResult) :
    Option WaitResult :=
  waitForAllNodesReady env timeout (schedule timeout polls)

/-! ## Lock Recovery (`cleanupStaleLockFile`) -/

/-- Results of the filesystem calls made by `cleanupStaleLockFile`:
`os.UserHomeDir`, `os.Stat` of the lock file (on success, the file's
age `time.Since(info.ModTime())` in time-units), and `os.Remove`
(whose result the Go code discards). -/
structure LockEnv where
  homeDir : Except String String
  statAge : Except String Int
  removeError : Option String

/-- What `cleanupStaleLockFile` did: whether `os.Remove` was invoked,
and what error, if any, reached the caller (the Go function has no
return value and every early exit is a bare `return`). -/
structure LockEffect where
  removeCalled : Bool
  surfacedError : Option String
deriving Repr, DecidableEq

/-- `cleanupStaleLockFile` (`cluster_resource.go` lines 48-64). -/
def cleanupStaleLockFile (env : LockEnv) : LockEffect :=
  match env.homeDir with
  | .error _ => { removeCalled := false, surfacedError := none }
  | .ok _ =>
    match env.statAge with
    | .error _ => { removeCalled := false, surfacedError := none }
    | .ok age =>
      if age > 60 then { removeCalled := true, surfacedError := none }
      else { removeCalled := false, surfacedError := none }

/-! ## Lifecycle Controller: Create (`ClusterResource.Create`)

The backend create, the populate stage, and the readiness gate are the
effectful collaborators; their results form the environment.  The
observable outcome records the `AddError` calls (in order, as
`(summary, detail)` pairs), the populated computed data (if the
populate stage ran to completion), whether `resp.State.Set` recorded
the resource, and whether anything deleted the backend resource. -/

structure CreateEnv where
  createError : Option String
  populateEnv : PopulateEnv
  waitForNodesReady : TfBool
  gateResult : WaitResult

structure CreateOutcome where
  errors : List (String × String)
  populated : Option PopulatedData
  stateRecorded : Bool
  backendDeleted : Bool
deriving Repr, DecidableEq

/-- The detail string of the gate's error as seen by `Create`
(`err.Error()` of the gate's return value). -/
def waitResultMsg : WaitResult → String
  | .success => ""
  | .cancelled => "context canceled"
  | .timedOutAfter t => "timeout waiting for nodes to be ready after " ++ toString t
  | .setupError m => m

/-- Whether the gate returned a non-nil error. -/
def waitResultIsError : WaitResult → Bool
  | .success => false
  | _ => true

/-- `ClusterResource.Create` (`cluster_resource.go` lines 524-570) from
the point the plan has been read: backend create, populate, optional
readiness gate, state write.  Every error path returns before
`resp.State.Set`, so `stateRecorded` is true only on the fully
successful path; no path deletes the backend resource. -/
def createCluster (env : CreateEnv) (clusterName : String) : CreateOutcome :=
  match env.createError with
  | some msg =>
    { errors := [("Failed to create cluster", msg)], populated := none,
      stateRecorded := false, backendDeleted := false }
  | none =>
    match populateComputedValues env.populateEnv clusterName with
    | .error e =>
      { errors := [e], populated := none, stateRecorded := false,
        backendDeleted := false }
    | .ok d =>
      if env.waitForNodesReady.isSome && tfBool env.waitForNodesReady then
        if waitResultIsError env.gateResult then
          { errors := [("Failed waiting for nodes to be ready",
              waitResultMsg env.gateResult)],
            populated := some d, stateRecorded := false, backendDeleted := false }
        else
          { errors := [], populated := some d, stateRecorded := true,
            backendDeleted := false }
      else
        { errors := [], populated := some d, stateRecorded := true,
          backendDeleted := false }

/-! ## Concrete inputs used to exercise the theorems -/

/-- A node whose `Ready` condition is `True`. -/
def readyNode : NodeView :=
  { name := "kind-control-plane", conditions := [{ condType := "Ready", status := "True" }] }

/-- A populate environment in which every external call succeeds and the
unmarshalled bundle is an empty mapping (every section absent). -/
def populateEnvOk : PopulateEnv :=
  { kubeconfigFetch := .ok "apiVersion: v1", homeDir := .ok "/home/user",
    parsed := .ok [] }

/-- A populate environment whose bundle fails to unmarshal. -/
def populateEnvBadYaml : PopulateEnv :=
  { kubeconfigFetch := .ok "not a yaml mapping", homeDir := .ok "/home/user",
    parsed := .error "error converting YAML to JSON" }

/-- The `PopulatedData` produced from `populateEnvOk` for cluster
`demo`. -/
def populatedDemo : PopulatedData :=
  { id := "demo", kubeconfig := "apiVersion: v1",
    kubeconfigPath := "/home/user/.kube/kind/kind-demo",
    derived := { endpoint := "", caCert := "", clientCert := "", clientKey := "" } }

/-- A gate setup in which the credential bundle fails to materialize
into a client configuration (`clientcmd.BuildConfigFromFlags` errors). -/
def setupEnvBadBundle : WaitSetupEnv :=
  { buildConfig := .error "invalid configuration" }

/-- A create run in which the backend create succeeds, populate
succeeds, the gate is enabled, and the gate then times out. -/
def createEnvGateTimeout : CreateEnv :=
  { createError := none, populateEnv := populateEnvOk,
    waitForNodesReady := some true, gateResult := .timedOutAfter 300 }

/-- A create run in which the backend create fails (end-to-end
scenario D's message). -/
def createEnvBackendFail : CreateEnv :=
  { createError := some "image not found", populateEnv := populateEnvOk,
    waitForNodesReady := some true, gateResult := .success }

/-! ## Helper lemmas -/

theorem collectStrings_map_some (ps : List String) :
    collectStrings (ps.map some) = ps := by
  induction ps with
  | nil => rfl
  | cons p ps ih => simpa [collectStrings] using ih

theorem exceptOk_unit {e : Except String Unit} (h : exceptOk e = true) :
    e = .ok () := by
  cases e with
  | ok u => cases u; rfl
  | error s => simp [exceptOk] at h

/-- With all five setup steps succeeding, `waitForAllNodesReady` is the
polling loop. -/
theorem waitForAllNodesReady_of_allOk (env : WaitSetupEnv) (timeout : Nat)
    (evs : List WaitEvent) (hok : env.allOk = true) :
    waitForAllNodesReady env timeout evs = runWaitLoop timeout evs := by
  simp only [WaitSetupEnv.allOk, Bool.and_eq_true] at hok
  obtain ⟨⟨⟨⟨h1, h2⟩, h3⟩, h4⟩, h5⟩ := hok
  rw [waitForAllNodesReady, exceptOk_unit h1, exceptOk_unit h2, exceptOk_unit h3,
    exceptOk_unit h4, exceptOk_unit h5]

/-! ## Claim theorems -/

/-- C1: if the model supplies zero node blocks, the synthesized spec's
node list is exactly [control-plane, worker]; otherwise it has exactly
one node per declared block, in declared order. -/
theorem buildClusterConfig_node_topology (m : ClusterResourceModel) :
    (m.nodes = [] →
      (buildClusterConfig m).nodes =
        [{ role := controlPlaneRole }, { role := workerRole }]) ∧
    (m.nodes ≠ [] →
      (buildClusterConfig m).nodes = m.nodes.map buildNodeConfig ∧
        (buildClusterConfig m).nodes.length = m.nodes.length) := by
  constructor
  · intro h
    simp [buildClusterConfig, h]
  · intro h
    have hl : m.nodes.length > 0 := by
      cases hm : m.nodes with
      | nil => exact absurd hm h
      | cons a l => simp [hm]
    constructor <;> simp [buildClusterConfig, hl]

theorem buildClusterConfig_node_topology_witness :
    (buildClusterConfig { name := some "demo" }).nodes =
        [{ role := controlPlaneRole }, { role := workerRole }] ∧
      (buildClusterConfig { name := some "demo", nodes := [{ role := some "worker" }] }).nodes =
        [buildNodeConfig { role := some "worker" }] ∧
      (buildClusterConfig { name := some "demo", nodes := [{ role := some "worker" }] }).nodes.length = 1 :=
  ⟨(buildClusterConfig_node_topology { name := some "demo" }).1 rfl,
    (buildClusterConfig_node_topology
      { name := some "demo", nodes := [{ role := some "worker" }] }).2 (by simp)⟩

/-- C8: a model holding N kubeadm merge-patches (as non-null list
elements) in a given order synthesizes the same N patches in the same
order, at cluster level and at node level. -/
theorem patch_order_preserved (ps qs : List String) (m : ClusterResourceModel)
    (n : NodeModel)
    (hm : m.kubeadmConfigPatches = some (ps.map some))
    (hn : n.kubeadmConfigPatches = some (qs.map some)) :
    (buildClusterConfig m).kubeadmConfigPatches = ps ∧
    (buildNodeConfig n).kubeadmConfigPatches = qs := by
  constructor
  · cases ps with
    | nil => simp [buildClusterConfig, hm, collectStrings]
    | cons p ps =>
      simp [buildClusterConfig, hm]
      simpa using collectStrings_map_some (p :: ps)
  · cases qs with
    | nil => simp [buildNodeConfig, hn, collectStrings]
    | cons q qs =>
      simp [buildNodeConfig, hn]
      simpa using collectStrings_map_some (q :: qs)

theorem patch_order_preserved_witness :
    (buildClusterConfig
        { name := some "demo",
          kubeadmConfigPatches := some [some "p1", some "p2", some "p3"] }).kubeadmConfigPatches =
      ["p1", "p2", "p3"] ∧
    (buildNodeConfig
        { role := some "worker",
          kubeadmConfigPatches := some [some "q1", some "q2"] }).kubeadmConfigPatches =
      ["q1", "q2"] :=
  patch_order_preserved ["p1", "p2", "p3"] ["q1", "q2"]
    { name := some "demo", kubeadmConfigPatches := some [some "p1", some "p2", some "p3"] }
    { role := some "worker", kubeadmConfigPatches := some [some "q1", some "q2"] }
    rfl rfl

/-- C9: `cleanupStaleLockFile` never surfaces any failure to its
caller, never invokes removal when the lock artifact's age is at most
60 time-units, and always invokes removal when the artifact is present
(home directory resolved, stat succeeded) and strictly older than 60
time-units.  "Removes" is the `os.Remove` invocation; its own error is
discarded by the code. -/
theorem cleanupStaleLockFile_spec (env : LockEnv) (hd : String) (a : Int) :
    (cleanupStaleLockFile env).surfacedError = none ∧
    (env.statAge = .ok a → a ≤ 60 → (cleanupStaleLockFile env).removeCalled = false) ∧
    (env.homeDir = .ok hd → env.statAge = .ok a → 60 < a →
      (cleanupStaleLockFile env).removeCalled = true) := by
  refine ⟨?_, ?_, ?_⟩
  · cases hh : env.homeDir with
    | error e => simp [cleanupStaleLockFile, hh]
    | ok x =>
      cases hs : env.statAge with
      | error e => simp [cleanupStaleLockFile, hh, hs]
      | ok age =>
        by_cases h60 : age > 60 <;> simp [cleanupStaleLockFile, hh, hs, h60]
  · intro hs hle
    cases hh : env.homeDir with
    | error e => simp [cleanupStaleLockFile, hh]
    | ok x =>
      have hng : ¬a > 60 := not_lt.mpr hle
      simp [cleanupStaleLockFile, hh, hs, hng]
  · intro hh hs hgt
    simp [cleanupStaleLockFile, hh, hs, hgt]

theorem cleanupStaleLockFile_spec_witness :
    (cleanupStaleLockFile
        { homeDir := .ok "/home/user", statAge := .ok 61, removeError := none }).surfacedError =
      none ∧
    (cleanupStaleLockFile
        { homeDir := .ok "/home/user", statAge := .ok 60, removeError := none }).removeCalled =
      false ∧
    (cleanupStaleLockFile
        { homeDir := .ok "/home/user", statAge := .ok 61, removeError := none }).removeCalled =
      true :=
  ⟨(cleanupStaleLockFile_spec
      { homeDir := .ok "/home/user", statAge := .ok 61, removeError := none } "/home/user" 61).1,
    (cleanupStaleLockFile_spec
      { homeDir := .ok "/home/user", statAge := .ok 60, removeError := none } "/home/user" 60).2.1
      rfl (by decide),
    (cleanupStaleLockFile_spec
      { homeDir := .ok "/home/user", statAge := .ok 61, removeError := none } "/home/user" 61).2.2
      rfl rfl (by decide)⟩

/-- C2: once the bundle has been fetched and the home directory
resolved, a bundle that unmarshals successfully never raises an error,
and each of the four derived fields that the extraction walk leaves
unassigned (absent from the bundle) ends up as the empty string; a
bundle that fails to unmarshal is a hard error and, the operation
returning early, no derived field is populated (the error result
carries no data). -/
theorem populateComputedValues_parse_behavior (env : PopulateEnv)
    (clusterName kc hd e : String) (doc : YMap)
    (hkc : env.kubeconfigFetch = .ok kc) (hhd : env.homeDir = .ok hd) :
    (env.parsed = .ok doc →
      populateComputedValues env clusterName =
        .ok { id := clusterName, kubeconfig := kc,
              kubeconfigPath := hd ++ "/.kube/kind/kind-" ++ clusterName,
              derived :=
                { endpoint := (extractDerived doc).endpoint.getD ""
                  caCert := (extractDerived doc).caCert.getD ""
                  clientCert := (extractDerived doc).clientCert.getD ""
                  clientKey := (extractDerived doc).clientKey.getD "" } } ∧
      ((extractDerived doc).endpoint = none →
        ((extractDerived doc).endpoint.getD "" : String) = "") ∧
      ((extractDerived doc).caCert = none →
        ((extractDerived doc).caCert.getD "" : String) = "") ∧
      ((extractDerived doc).clientCert = none →
        ((extractDerived doc).clientCert.getD "" : String) = "") ∧
      ((extractDerived doc).clientKey = none →
        ((extractDerived doc).clientKey.getD "" : String) = "")) ∧
    (env.parsed = .error e →
      populateComputedValues env clusterName =
        .error ("Failed to parse kubeconfig", e)) := by
  constructor
  · intro hp
    refine ⟨?_, ?_, ?_, ?_, ?_⟩
    · simp [populateComputedValues, hkc, hhd, hp]
    all_goals intro h; simp [h]
  · intro hp
    simp [populateComputedValues, hkc, hhd, hp]

theorem populateComputedValues_parse_behavior_witness :
    populateComputedValues populateEnvOk "demo" = .ok populatedDemo ∧
    populateComputedValues populateEnvBadYaml "demo" =
      .error ("Failed to parse kubeconfig", "error converting YAML to JSON") :=
  ⟨((populateComputedValues_parse_behavior populateEnvOk "demo" "apiVersion: v1"
      "/home/user" "" [] rfl rfl).1 rfl).1,
    (populateComputedValues_parse_behavior populateEnvBadYaml "demo" "not a yaml mapping"
      "/home/user" "error converting YAML to JSON" [] rfl rfl).2 rfl⟩

/-- C3: the polling loop returns success only when some polled response
reported at least one member with every reported member's `Ready`
condition true; a response with zero members continues the loop
unchanged. -/
theorem runWaitLoop_success_requires_ready (timeout : Nat)
    (evs rest : List WaitEvent) :
    (runWaitLoop timeout evs = some .success →
      ∃ nodes, WaitEvent.tick (PollResult.ok nodes) ∈ evs ∧ nodes ≠ [] ∧
        nodes.all nodeIsReady = true) ∧
    runWaitLoop timeout (WaitEvent.tick (PollResult.ok []) :: rest) =
      runWaitLoop timeout rest := by
  constructor
  · induction evs with
    | nil => intro h; simp [runWaitLoop] at h
    | cons e rest' ih =>
      intro h
      cases e with
      | cancelled => simp [runWaitLoop] at h
      | timedOut => simp [runWaitLoop] at h
      | tick pr =>
        by_cases hp : pollStep pr = true
        · cases pr with
          | listError => simp [pollStep] at hp
          | ok nodes =>
            by_cases hlen : nodes.length = 0
            · simp [pollStep, hlen] at hp
            · refine ⟨nodes, by simp, ?_, ?_⟩
              · intro hn
                exact hlen (by simp [hn])
              · simpa [pollStep, hlen] using hp
        · rw [runWaitLoop, if_neg hp] at h
          obtain ⟨nodes, hmem, hne, hall⟩ := ih h
          exact ⟨nodes, List.mem_cons_of_mem _ hmem, hne, hall⟩
  · simp [runWaitLoop, pollStep]

theorem runWaitLoop_success_requires_ready_witness :
    (∃ nodes,
      WaitEvent.tick (PollResult.ok nodes) ∈
          [WaitEvent.tick (PollResult.ok [readyNode])] ∧
        nodes ≠ [] ∧ nodes.all nodeIsReady = true) ∧
    runWaitLoop 300 [WaitEvent.tick (PollResult.ok []), WaitEvent.timedOut] =
      runWaitLoop 300 [WaitEvent.timedOut] :=
  ⟨(runWaitLoop_success_requires_ready 300
        [WaitEvent.tick (PollResult.ok [readyNode])] []).1 (by decide),
    (runWaitLoop_success_requires_ready 300 [] [WaitEvent.timedOut]).2⟩

/-- C4 counterexample: `waitForAllNodesReady` has outcomes beyond
success / cancellation / timeout.  A credential bundle that fails to
materialize into a client configuration (the code's
`clientcmd.BuildConfigFromFlags` error path) yields a distinct setup
error, so the claim that no outcome other than the three is possible
is false. -/
theorem waitForAllNodesReady_fourth_outcome :
    waitForAllNodesReady setupEnvBadBundle 300 [] =
      some (.setupError "failed to build kubeconfig: invalid configuration") ∧
    some (WaitResult.setupError "failed to build kubeconfig: invalid configuration") ≠
      some WaitResult.success ∧
    some (WaitResult.setupError "failed to build kubeconfig: invalid configuration") ≠
      some WaitResult.cancelled ∧
    some (WaitResult.setupError "failed to build kubeconfig: invalid configuration") ≠
      some (WaitResult.timedOutAfter 300) := by
  refine ⟨rfl, by decide, by decide, by decide⟩

/-- C4 (amended): once the five setup steps succeed, the loop — given
that the cancellation or timeout channel eventually fires — terminates
with exactly one of the three mutually exclusive outcomes: success,
propagated cancellation, or a TimedOut error naming the timeout
duration; and a cancellation event is propagated immediately, with no
further polling. -/
theorem waitForAllNodesReady_three_outcomes (env : WaitSetupEnv) (timeout : Nat)
    (evs rest : List WaitEvent) (hok : env.allOk = true)
    (hterm : WaitEvent.cancelled ∈ evs ∨ WaitEvent.timedOut ∈ evs) :
    (∃ r, waitForAllNodesReady env timeout evs = some r ∧
      (r = .success ∨ r = .cancelled ∨ r = .timedOutAfter timeout)) ∧
    waitForAllNodesReady env timeout (WaitEvent.cancelled :: rest) =
      some .cancelled := by
  rw [waitForAllNodesReady_of_allOk env timeout evs hok,
    waitForAllNodesReady_of_allOk env timeout (WaitEvent.cancelled :: rest) hok]
  refine ⟨?_, rfl⟩
  induction evs with
  | nil => simp at hterm
  | cons e rest' ih =>
    cases e with
    | cancelled => exact ⟨.cancelled, rfl, Or.inr (Or.inl rfl)⟩
    | timedOut => exact ⟨.timedOutAfter timeout, rfl, Or.inr (Or.inr rfl)⟩
    | tick pr =>
      have hterm' : WaitEvent.cancelled ∈ rest' ∨ WaitEvent.timedOut ∈ rest' := by
        rcases hterm with h | h
        · rcases List.mem_cons.mp h with h | h
          · exact absurd h (by simp)
          · exact Or.inl h
        · rcases List.mem_cons.mp h with h | h
          · exact absurd h (by simp)
          · exact Or.inr h
      by_cases hp : pollStep pr = true
      · exact ⟨.success, by simp [runWaitLoop, hp], Or.inl rfl⟩
      · obtain ⟨r, hr, ho⟩ := ih hterm'
        exact ⟨r, by simp [runWaitLoop, hp, hr], ho⟩

theorem waitForAllNodesReady_three_outcomes_witness :
    (∃ r, waitForAllNodesReady {} 300 [WaitEvent.timedOut] = some r ∧
      (r = .success ∨ r = .cancelled ∨ r = .timedOutAfter 300)) ∧
    waitForAllNodesReady {} 300 [WaitEvent.cancelled] = some .cancelled :=
  waitForAllNodesReady_three_outcomes {} 300 [WaitEvent.timedOut] []
    (by decide) (Or.inr (by simp))

/-- C5 counterexample: when the readiness gate fails after a successful
backend create, the code reports the distinct error and deletes
nothing, but it returns before `resp.State.Set`, so the resource is
NOT recorded in tracked state — refuting the claim's "recorded in
tracked state" conjunct at this input. -/
theorem create_gate_failure_state_not_recorded :
    createEnvGateTimeout.createError = none ∧
    (createCluster createEnvGateTimeout "demo").errors =
      [("Failed waiting for nodes to be ready",
        waitResultMsg (WaitResult.timedOutAfter 300))] ∧
    (createCluster createEnvGateTimeout "demo").backendDeleted = false ∧
    (createCluster createEnvGateTimeout "demo").stateRecorded ≠ true := by
  refine ⟨rfl, rfl, rfl, by decide⟩

/-- C5 (amended): when the backend create succeeds, populate succeeds,
the gate is enabled and then fails, the operation reports the distinct
"Failed waiting for nodes to be ready" error and does not delete the
backend resource; the backend cluster is left existing, but the
resource is not recorded in tracked state (the state write is skipped
on this path). -/
theorem create_gate_failure_behavior (env : CreateEnv)
    (clusterName : String) (d : PopulatedData)
    (hc : env.createError = none)
    (hp : populateComputedValues env.populateEnv clusterName = .ok d)
    (hw : env.waitForNodesReady = some true)
    (hg : waitResultIsError env.gateResult = true) :
    createCluster env clusterName =
      { errors := [("Failed waiting for nodes to be ready",
          waitResultMsg env.gateResult)],
        populated := some d, stateRecorded := false, backendDeleted := false } := by
  simp [createCluster, hc, hp, hw, hg, tfBool]

theorem create_gate_failure_behavior_witness :
    createCluster createEnvGateTimeout "demo" =
      { errors := [("Failed waiting for nodes to be ready",
          waitResultMsg (WaitResult.timedOutAfter 300))],
        populated := some populatedDemo, stateRecorded := false,
        backendDeleted := false } :=
  create_gate_failure_behavior createEnvGateTimeout "demo" populatedDemo
    rfl rfl rfl rfl

/-- C6: when the backend create fails with message `msg`, the operation
aborts with the classified error carrying `msg` verbatim as its
detail, populates no computed data, records no state, and deletes
nothing. -/
theorem create_backend_failure_behavior (env : CreateEnv)
    (clusterName msg : String) (hc : env.createError = some msg) :
    createCluster env clusterName =
      { errors := [("Failed to create cluster", msg)], populated := none,
        stateRecorded := false, backendDeleted := false } ∧
    ("Failed to create cluster", msg) ∈ (createCluster env clusterName).errors := by
  refine ⟨by simp [createCluster, hc], ?_⟩
  simp [createCluster, hc]

theorem create_backend_failure_behavior_witness :
    createCluster createEnvBackendFail "demo" =
      { errors := [("Failed to create cluster", "image not found")],
        populated := none, stateRecorded := false, backendDeleted := false } ∧
    ("Failed to create cluster", "image not found") ∈
      (createCluster createEnvBackendFail "demo").errors :=
  create_backend_failure_behavior createEnvBackendFail "demo" "image not found" rfl

/-- C7 counterexample: the IP family model value "bogus" is carried
verbatim into the synthesized spec even though it is none of the known
enum constants, so the non-role enum fields are not mapped by exact
string match against the known constants (exact-match semantics,
`specEnumExactMatch`, would not let "bogus" through). -/
theorem enum_cast_not_exact_match :
    (buildNetworkingConfig { ipFamily := some "bogus" }).ipFamily = "bogus" ∧
    "bogus" ∉ ipFamilyConstants ∧
    specEnumExactMatch ipFamilyConstants "bogus" ≠ "bogus" := by
  refine ⟨rfl, by decide, by decide⟩

/-- C7 (amended): only the node role is mapped by exact string match
("control-plane" / "worker"), with an unrecognized role silently
leaving the role field at its zero value; the IP family, kube-proxy
mode, mount propagation and port-mapping protocol strings are cast
into the synthesized spec verbatim (no match against the known
constants), so unrecognized values flow through unchanged. -/
theorem enum_mapping_behavior (node : NodeModel) (net : NetworkingModel)
    (m : MountModel) (pm : PortMappingModel) (s : String) :
    (node.role = some "control-plane" → (buildNodeConfig node).role = controlPlaneRole) ∧
    (node.role = some "worker" → (buildNodeConfig node).role = workerRole) ∧
    (node.role = some s → s ≠ "control-plane" → s ≠ "worker" →
      (buildNodeConfig node).role = "") ∧
    (net.ipFamily = some s → s ≠ "" → (buildNetworkingConfig net).ipFamily = s) ∧
    (net.kubeProxyMode = some s → s ≠ "" →
      (buildNetworkingConfig net).kubeProxyMode = s) ∧
    (m.propagation = some s → (buildMount m).propagation = s) ∧
    (pm.protocol = some s → (buildPortMapping pm).protocol = s) := by
  refine ⟨?_, ?_, ?_, ?_, ?_, ?_, ?_⟩
  · intro h; simp [buildNodeConfig, h, tfStr]
  · intro h; simp [buildNodeConfig, h, tfStr]
  · intro h h1 h2; simp [buildNodeConfig, h, tfStr, h1, h2]
  · intro h hne; simp [buildNetworkingConfig, h, tfStr, hne]
  · intro h hne; simp [buildNetworkingConfig, h, tfStr, hne]
  · intro h; simp [buildMount, h, tfStr]
  · intro h; simp [buildPortMapping, h, tfStr]

theorem enum_mapping_behavior_witness :
    (buildNodeConfig { role := some "contrl-plane" }).role = "" ∧
    (buildNetworkingConfig { ipFamily := some "bogus" }).ipFamily = "bogus" :=
  ⟨(enum_mapping_behavior { role := some "contrl-plane" } {} {} {} "contrl-plane").2.2.1
      rfl (by decide) (by decide),
    (enum_mapping_behavior {} { ipFamily := some "bogus" } {} {} "bogus").2.2.2.1
      rfl (by decide)⟩

/-- C10: with the 5-time-unit poll interval, the first tick can only
fire after one full interval, so for any timeout strictly below 5 the
timeout channel fires first and the gate returns TimedOut regardless
of what the status source would have reported. -/
theorem short_timeout_always_timedOut (env : WaitSetupEnv) (timeout : Nat)
    (polls : Nat → PollResult) (hok : env.allOk = true) (hlt : timeout < 5) :
    runTimed env timeout polls = some (.timedOutAfter timeout) := by
  have h0 : ticksBefore timeout = 0 := by
    unfold ticksBefore
    exact Nat.div_eq_of_lt (by omega)
  have hs : schedule timeout polls = [WaitEvent.timedOut] := by
    simp [schedule, h0]
  rw [runTimed, waitForAllNodesReady_of_allOk env timeout _ hok, hs]
  rfl

theorem short_timeout_always_timedOut_witness :
    runTimed {} 3 (fun _ => PollResult.ok [readyNode]) =
      some (.timedOutAfter 3) :=
  short_timeout_always_timedOut {} 3 (fun _ => PollResult.ok [readyNode])
    (by decide) (by decide)

end KindTf
